import Mathlib

/-!
Verification of the Schema Catalog and Guarded Query Gateway of the
Agentarium repository (src/src/postgres_db.py and src/src/mcp.py).

The Python code is shallowly embedded: pydantic models become structures,
field validators become smart constructors returning `Except String`,
Python exceptions become the `Except` monad, and the SQLAlchemy engine and
inspector are abstracted as explicit inputs (a function from SQL text to a
`QueryResult`, and raw catalog records), since they are the external
database boundary.  `PostgreSQLManager.execute_query`
(src/src/postgres_db.py lines 309-348) wraps every engine exception into a
structured `QueryResult` and never raises, so calls to it are modelled as a
total function `String → QueryResult`.
-/

/-! ## Python string primitives

Embeddings of the Python `str` operations the code uses: `strip`, `upper`,
`lower`, `startswith`, and the `in` substring test.  They are modelled on
the ASCII fragment (Python additionally handles non-ASCII whitespace and
case, which never occurs in the SQL keywords being tested). -/

/-- The whitespace characters removed by Python `str.strip`. -/
def isPySpace (c : Char) : Bool :=
  c == ' ' || c == '\t' || c == '\n' || c == '\r' || c == '\x0b' || c == '\x0c'

/-- Python `str.strip` on the character list: drop whitespace from both ends. -/
def pyStripL (l : List Char) : List Char :=
  ((l.dropWhile isPySpace).reverse.dropWhile isPySpace).reverse

/-- Python `str.strip`. -/
def pyStrip (s : String) : String := ⟨pyStripL s.data⟩

/-- Python `str.upper` (ASCII). -/
def pyUpper (s : String) : String := ⟨s.data.map Char.toUpper⟩

/-- Python `str.lower` (ASCII). -/
def pyLower (s : String) : String := ⟨s.data.map Char.toLower⟩

/-- Boolean prefix test on character lists. -/
def pyIsPrefixOfL : List Char → List Char → Bool
  | [], _ => true
  | _ :: _, [] => false
  | a :: as, b :: bs => a == b && pyIsPrefixOfL as bs

/-- Python `str.startswith`. -/
def pyStartsWith (s pre : String) : Bool := pyIsPrefixOfL pre.data s.data

/-- Python substring containment on character lists (`sub in l`). -/
def pyInL (sub : List Char) : List Char → Bool
  | [] => sub.isEmpty
  | b :: bs => pyIsPrefixOfL sub (b :: bs) || pyInL sub bs

/-- Python substring containment (`sub in s`). -/
def pyIn (sub s : String) : Bool := pyInL sub.data s.data

/-! ## Row values

Cells of a result row (`Dict[str, Any]` in the Python code) are modelled as
integers, strings or nulls — the shapes the claims exercise. -/

inductive PyValue where
  | int (n : Int)
  | str (s : String)
  | null
  deriving Repr, DecidableEq

/-- One result row: a mapping from column name to value, as built by
`dict(zip(columns, row))` in `execute_query`. -/
abbrev Row := List (String × PyValue)

/-- Python `dict` lookup `row[key]` returning `none` on `KeyError`. -/
def rowLookup (row : Row) (key : String) : Option PyValue :=
  match row with
  | [] => none
  | (k, v) :: rest => if k == key then some v else rowLookup rest key

/-! ## Data model (pydantic models of src/src/postgres_db.py)

`execution_time` fields are omitted: wall-clock timing is not modelled. -/

/-- `QueryResult` (postgres_db.py lines 96-111). -/
structure QueryResult where
  success : Bool
  data : Option (List Row) := none
  error : Option String := none
  rows_affected : Option Int := none
  columns : Option (List String) := none
  deriving Repr, DecidableEq

/-- `DatabaseColumn` (postgres_db.py lines 32-51). -/
structure DatabaseColumn where
  name : String
  type : String
  nullable : Bool := true
  default : Option String := none
  primary_key : Bool := false
  foreign_key : Option String := none
  max_length : Option Int := none
  precision : Option Int := none
  scale : Option Int := none
  deriving Repr, DecidableEq

/-- `ForeignKey` (postgres_db.py lines 53-58). -/
structure ForeignKey where
  constrained_columns : List String
  referred_table : String
  referred_columns : List String
  name : Option String := none
  deriving Repr, DecidableEq

/-- `TableIndex` (postgres_db.py lines 60-64). -/
structure TableIndex where
  name : String
  columns : List String
  unique : Bool := false
  deriving Repr, DecidableEq

/-- `TableSchema` (postgres_db.py lines 66-80). -/
structure TableSchema where
  table_name : String
  columns : List DatabaseColumn := []
  primary_keys : List String := []
  foreign_keys : List ForeignKey := []
  indexes : List TableIndex := []
  row_count : Option Int := none
  deriving Repr, DecidableEq

/-- `DatabaseSchema` (postgres_db.py lines 82-94).  The Python `Dict` keyed
by table name is modelled as an insertion-ordered association list with
last-write-wins update, matching `dict` semantics. -/
structure DatabaseSchema where
  database_name : String
  tables : List (String × TableSchema) := []
  total_tables : Nat := 0
  deriving Repr, DecidableEq

/-- `SampleData` (postgres_db.py lines 113-118).  No field validators. -/
structure SampleData where
  table_name : String
  rows : List Row := []
  total_rows_sampled : Nat := 0
  columns : List String := []
  deriving Repr, DecidableEq

/-- `QueryExecutionResponse` (mcp.py lines 91-96). -/
structure QueryExecutionResponse where
  success : Bool
  query : String
  result : Option QueryResult := none
  error : Option String := none
  deriving Repr, DecidableEq

/-- `SampleDataResponse` (mcp.py lines 139-144). -/
structure SampleDataResponse where
  success : Bool
  table_name : String
  sample_data : Option SampleData := none
  error : Option String := none
  deriving Repr, DecidableEq

/-! ## Validating constructors

pydantic `field_validator`s raise `ValueError` on bad input; constructing a
model is therefore fallible and embedded in `Except String`. -/

/-- Constructing a `DatabaseColumn` as `get_table_schema` does
(postgres_db.py lines 244-251): the `name` validator (lines 46-51) rejects
empty or whitespace-only names and stores the stripped name. -/
def mkDatabaseColumn (name type : String) (nullable : Bool)
    (default : Option String) : Except String DatabaseColumn :=
  if pyStrip name = "" then .error "Column name cannot be empty"
  else .ok { name := pyStrip name, type := type, nullable := nullable,
             default := default }

/-- Constructing a `TableSchema`: the `table_name` validator
(postgres_db.py lines 75-80) rejects empty or whitespace-only names and
stores the stripped name. -/
def mkTableSchema (table_name : String) (columns : List DatabaseColumn)
    (primary_keys : List String) (foreign_keys : List ForeignKey)
    (indexes : List TableIndex) : Except String TableSchema :=
  if pyStrip table_name = "" then .error "Table name cannot be empty"
  else .ok { table_name := pyStrip table_name, columns := columns,
             primary_keys := primary_keys, foreign_keys := foreign_keys,
             indexes := indexes }

/-! ## Raw engine catalog records

The SQLAlchemy inspector output consumed by `get_table_schema`
(postgres_db.py lines 235-295), as plain records.  A failing catalog fetch
(table absent, introspection error) is an `Except.error` input. -/

/-- One element of `inspector.get_columns(table_name)`. -/
structure RawColumn where
  name : String
  type : String
  nullable : Bool
  default : Option String
  deriving Repr, DecidableEq

/-- One element of `inspector.get_foreign_keys(table_name)`. -/
structure RawForeignKey where
  constrained_columns : List String
  referred_table : String
  referred_columns : List String
  name : Option String
  deriving Repr, DecidableEq

/-- One element of `inspector.get_indexes(table_name)`. -/
structure RawIndex where
  name : String
  column_names : List String
  unique : Bool
  deriving Repr, DecidableEq

/-- Everything the inspector reports about one table: columns, the primary
key constraint's `constrained_columns`, foreign keys and indexes. -/
structure RawTableInfo where
  columns : List RawColumn := []
  pk_constrained_columns : List String := []
  foreign_keys : List RawForeignKey := []
  indexes : List RawIndex := []
  deriving Repr, DecidableEq

namespace PostgreSQLManager

/-- The column-building loop of `get_table_schema` (postgres_db.py lines
242-251): each `DatabaseColumn(...)` construction may raise. -/
def mkColumns : List RawColumn → Except String (List DatabaseColumn)
  | [] => .ok []
  | rc :: rest => do
      let c ← mkDatabaseColumn rc.name rc.type rc.nullable rc.default
      let cs ← mkColumns rest
      .ok (c :: cs)

/-- The primary-key marking loop (postgres_db.py lines 257-260): set
`primary_key := true` on every column whose name occurs in the primary-key
constraint list. -/
def markPrimaryKeys (pks : List String) (cols : List DatabaseColumn) :
    List DatabaseColumn :=
  cols.map fun c => if List.elem c.name pks then { c with primary_key := true } else c

/-- The foreign-key loop (postgres_db.py lines 262-272): each raw record is
wrapped verbatim as a `ForeignKey` (no validators on this model). -/
def mkForeignKeys (fks : List RawForeignKey) : List ForeignKey :=
  fks.map fun fk =>
    { constrained_columns := fk.constrained_columns,
      referred_table := fk.referred_table,
      referred_columns := fk.referred_columns,
      name := fk.name }

/-- The index loop (postgres_db.py lines 274-283). -/
def mkIndexes (idxs : List RawIndex) : List TableIndex :=
  idxs.map fun ix => { name := ix.name, columns := ix.column_names, unique := ix.unique }

/-- `PostgreSQLManager.get_table_schema` (postgres_db.py lines 235-295).
The whole body is wrapped in `try/except`: any failure (the catalog fetch,
a column validator, the final `TableSchema` validator) falls to the
`except` branch, which itself constructs `TableSchema(table_name=...)` —
and that construction re-raises when the table name is empty or
whitespace-only. -/
def get_table_schema (fetch : Except String RawTableInfo)
    (table_name : String) : Except String TableSchema :=
  let attempt : Except String TableSchema := do
    let info ← fetch
    let cols ← mkColumns info.columns
    let pks := info.pk_constrained_columns
    let marked := markPrimaryKeys pks cols
    mkTableSchema table_name marked pks (mkForeignKeys info.foreign_keys)
      (mkIndexes info.indexes)
  match attempt with
  | .ok ts => .ok ts
  | .error _ => mkTableSchema table_name [] [] [] []

/-- `PostgreSQLManager.list_tables` (postgres_db.py lines 225-233): the
inspector call is wrapped in `try/except` and a failure is caught, printed
and replaced by the empty list — the function is total and never raises. -/
def list_tables (engineTables : Except String (List String)) : List String :=
  match engineTables with
  | .ok ts => ts
  | .error _ => []

/-- Python `dict` assignment `schema.tables[table] = ts`: replace the value
at an existing key, else append. -/
def dictInsert (m : List (String × TableSchema)) (k : String)
    (v : TableSchema) : List (String × TableSchema) :=
  if m.any (fun p => p.1 == k) then
    m.map fun p => if p.1 == k then (k, v) else p
  else m ++ [(k, v)]

/-- The table loop of `get_database_schema` (postgres_db.py lines 301-304).
`get_table_schema` is called without a surrounding `try`, so a raised
validation fault propagates. -/
def buildTables (fetch : String → Except String RawTableInfo) :
    List String → List (String × TableSchema) →
    Except String (List (String × TableSchema))
  | [], acc => .ok acc
  | t :: rest, acc => do
      let ts ← get_table_schema (fetch t) t
      buildTables fetch rest (dictInsert acc t ts)

/-- `PostgreSQLManager.get_database_schema` (postgres_db.py lines 297-307):
list the tables, fetch each schema into the mapping, and set
`total_tables := len(tables)` — the length of the listed table names, not
of the mapping. -/
def get_database_schema (fetch : String → Except String RawTableInfo)
    (engineTables : Except String (List String)) (database_name : String) :
    Except String DatabaseSchema := do
  let tables := list_tables engineTables
  let m ← buildTables fetch tables []
  .ok { database_name := database_name, tables := m,
        total_tables := tables.length }

end PostgreSQLManager

/-! ## Query Gateway (mcp.py)

`db_manager.execute_query` never raises (it catches every engine exception
into a `QueryResult`), so the engine is a total function
`String → QueryResult`. -/

/-- The SELECT-only safety gate of `execute_select_query` (mcp.py line
374): `sql_query.strip().upper().startswith('SELECT')`. -/
def selectGate (sql_query : String) : Bool :=
  pyStartsWith (pyUpper (pyStrip sql_query)) "SELECT"

/-- The fixed policy-violation error message (mcp.py line 378). -/
def policyViolationError : String :=
  "Only SELECT queries are allowed for security reasons"

/-- Python word character for the regex `\w` (ASCII model). -/
def isWordChar (c : Char) : Bool := c.isAlphanum || c == '_'

/-- Try to match the regex `FROM\s+(\w+)` (case-insensitive) at the head of
the list, returning the captured word. -/
def tryFromMatch (l : List Char) : Option String :=
  if (l.take 4).map Char.toUpper = "FROM".data then
    let rest := l.drop 4
    let afterSpace := rest.dropWhile isPySpace
    if afterSpace.length < rest.length then
      let w := afterSpace.takeWhile isWordChar
      if w.isEmpty then none else some ⟨w⟩
    else none
  else none

/-- `re.search(r'FROM\s+(\w+)', sql_query, re.IGNORECASE)` (mcp.py line
393): the leftmost position where the pattern matches. -/
def searchFromTable : List Char → Option String
  | [] => none
  | c :: cs =>
    match tryFromMatch (c :: cs) with
    | some w => some w
    | none => searchFromTable cs

/-- The appended suggestion when an unknown-column error is detected
(mcp.py lines 390-396). -/
def columnSuggestion (sql_query : String) : String :=
  match searchFromTable sql_query.data with
  | some table_name =>
      "\n\nSUGGESTION: The column name might be incorrect. Please use " ++
      "get_table_schema(table_name='" ++ table_name ++ "') to check the " ++
      "exact column names available in the table."
  | none => ""

/-- `execute_select_query` (mcp.py lines 353-422), returning the structured
`QueryExecutionResponse` together with a flag recording whether the engine
(`db_manager.execute_query`) was called for this input.  A rejected
statement is answered before the engine is touched.  When the engine
reports failure with `error = None`, `error_msg.lower()` raises and the
outer `except` answers with the unexpected-error message. -/
def execute_select_query (engine : String → QueryResult)
    (sql_query : String) : QueryExecutionResponse × Bool :=
  if !selectGate sql_query then
    ({ success := false, query := sql_query,
       error := some policyViolationError }, false)
  else
    let result := engine sql_query
    if !result.success then
      match result.error with
      | none =>
        ({ success := false, query := sql_query,
           error := some ("Unexpected error: 'NoneType' object has no attribute 'lower'. Please check your SQL syntax and table/column names.") }, true)
      | some error_msg =>
        let suggestions :=
          if pyIn "column" (pyLower error_msg) &&
             pyIn "does not exist" (pyLower error_msg) then
            columnSuggestion sql_query
          else ""
        ({ success := false, query := sql_query,
           error := some (error_msg ++ suggestions) }, true)
    else
      ({ success := true, query := sql_query, result := some result }, true)

/-! ## Sampler (postgres_db.py and mcp.py) -/

/-- The sample query string built by `PostgreSQLManager.get_sample_data`
(postgres_db.py line 353): `f"SELECT * FROM {table_name} LIMIT {limit}"` —
the table name is interpolated verbatim, with no quoting or escaping. -/
def sample_query (table_name : String) (limit : Nat) : String :=
  "SELECT * FROM " ++ table_name ++ " LIMIT " ++ toString limit

/-- `PostgreSQLManager.get_sample_data` (postgres_db.py lines 350-368):
build the sample query, run it, and repackage the rows; when the result is
unsuccessful or has no rows (`if result.success and result.data:`), return
an empty `SampleData`.  `SampleData` has no validators and `execute_query`
never raises, so the surrounding `try` never fires and the function is
total. -/
def PostgreSQLManager.get_sample_data (engine : String → QueryResult)
    (table_name : String) (limit : Nat) : SampleData :=
  let result := engine (sample_query table_name limit)
  match result.success, result.data with
  | true, some (r :: rs) =>
      { table_name := table_name, rows := r :: rs,
        total_rows_sampled := (r :: rs).length,
        columns := result.columns.getD [] }
  | _, _ => { table_name := table_name }

/-- The `get_sample_data` MCP tool (mcp.py lines 425-464): clamp the
requested limit to at most 20 (`safe_limit = min(limit, 20)`, line 445) and
delegate to the manager. -/
def get_sample_data (engine : String → QueryResult) (table_name : String)
    (limit : Nat) : SampleDataResponse :=
  let safe_limit := min limit 20
  { success := true, table_name := table_name,
    sample_data :=
      some (PostgreSQLManager.get_sample_data engine table_name safe_limit) }

/-! ## Statistics (mcp.py `get_table_statistics`) -/

/-- The row-count query (mcp.py line 601). -/
def count_query (table_name : String) : String :=
  "SELECT COUNT(*) as row_count FROM " ++ table_name

/-- Insert thousands separators into a reversed digit list (the grouping
done by the Python format spec `,`). -/
def group3 : List Char → List Char
  | a :: b :: c :: d :: rest => a :: b :: c :: ',' :: group3 (d :: rest)
  | l => l

/-- Python `f"{n:,}"` for an integer value. -/
def commaFormat (n : Int) : String :=
  let digits := (toString n.natAbs).data
  let grouped : String := ⟨(group3 digits.reverse).reverse⟩
  if n < 0 then "-" ++ grouped else grouped

/-- A run of `n` dashes (Python `'-' * n`). -/
def dashes (n : Nat) : String := ⟨List.replicate n '-'⟩

/-- The row-count block of `get_table_statistics` (mcp.py lines 599-606).
`execute_query` never raises, so the `except` branch is reachable only from
inside the `try` body: a missing `row_count` key (`KeyError`) or a
non-integer value rejected by the `,` format spec.  When the count query
merely fails (`success=False`) or returns no rows, the condition on line
602 is false and nothing at all is appended. -/
def rowCountSection (engine : String → QueryResult) (table_name : String) :
    String :=
  let count_result := engine (count_query table_name)
  match count_result.success, count_result.data with
  | true, some (r :: _) =>
      match rowLookup r "row_count" with
      | some (.int n) => "Total Rows: " ++ commaFormat n ++ "\n\n"
      | some (.str _) =>
          "Row count: Unable to determine (Cannot specify ',' with 's'.)\n\n"
      | some .null =>
          "Row count: Unable to determine (unsupported format string passed to NoneType.__format__)\n\n"
      | none => "Row count: Unable to determine ('row_count')\n\n"
  | _, _ => ""

/-- The per-column block of the statistics output (mcp.py lines 609-618). -/
def columnDetail (col : DatabaseColumn) : String :=
  "  • " ++ col.name ++ ":\n" ++
  "    - Type: " ++ col.type ++ "\n" ++
  "    - Nullable: " ++ (if col.nullable then "Yes" else "No") ++ "\n" ++
  (match col.default with
   | some d => if d.isEmpty then "" else "    - Default: " ++ d ++ "\n"
   | none => "") ++
  (if col.primary_key then "    - Primary Key: Yes\n" else "") ++
  "\n"

/-- The statistics response for a table whose schema fetch succeeded with
at least one column (mcp.py lines 590-620), parametrized by the row-count
block. -/
def statsResponse (table_name : String) (schema : TableSchema)
    (rowCountSec : String) : String :=
  "Statistics for table '" ++ table_name ++ "'\n" ++
  dashes (table_name.length + 25) ++ "\n\n" ++
  "Column Count: " ++ toString schema.columns.length ++ "\n" ++
  "Primary Keys: " ++ toString schema.primary_keys.length ++ "\n" ++
  "Foreign Keys: " ++ toString schema.foreign_keys.length ++ "\n" ++
  "Indexes: " ++ toString schema.indexes.length ++ "\n\n" ++
  rowCountSec ++
  "Column Details:\n" ++ String.join (schema.columns.map columnDetail)

/-- The `get_table_statistics` MCP tool (mcp.py lines 566-624).  The outer
`except` catches a fault raised by `get_table_schema` (an invalid table
name); a schema result without columns is terminal (line 587-588); the
row-count block is computed by `rowCountSection`. -/
def get_table_statistics (fetch : Except String RawTableInfo)
    (engine : String → QueryResult) (table_name : String) : String :=
  match PostgreSQLManager.get_table_schema fetch table_name with
  | .error e =>
      "Error getting statistics for table '" ++ table_name ++ "': " ++ e
  | .ok schema =>
      if schema.columns.isEmpty then
        "Table '" ++ table_name ++ "' not found or has no columns"
      else
        statsResponse table_name schema (rowCountSection engine table_name)

/-! ## Helper lemmas -/

theorem pyIsPrefixOfL_iff {l₁ l₂ : List Char} :
    pyIsPrefixOfL l₁ l₂ = true ↔ l₁ <+: l₂ := by
  induction l₁ generalizing l₂ with
  | nil => simp [pyIsPrefixOfL]
  | cons a as ih =>
    cases l₂ with
    | nil => simp [pyIsPrefixOfL]
    | cons b bs =>
      simp [pyIsPrefixOfL, Bool.and_eq_true, beq_iff_eq, ih,
        List.cons_prefix_cons]

theorem cons_suffix_dropWhile {p : Char → Bool} {c : Char} (hc : p c = false) :
    ∀ (X Y : List Char), (c :: Y) <:+ (X ++ c :: Y).dropWhile p
  | [], Y => by
      simp only [List.nil_append, List.dropWhile_cons, hc]
      exact List.suffix_refl _
  | x :: X, Y => by
      rw [List.cons_append, List.dropWhile_cons]
      by_cases hx : p x = true
      · rw [if_pos hx]; exact cons_suffix_dropWhile hc X Y
      · rw [if_neg hx]
        exact (List.suffix_append (x :: X) (c :: Y)).trans
          (by rw [List.cons_append])

/-- Any string whose text is `"SELECT * FROM "` followed by anything passes
the SELECT-prefix gate: leading strip removes nothing (the first character
is `S`), trailing strip cannot reach past the `M` of `FROM`, and
upper-casing fixes the already-uppercase prefix. -/
theorem selectGate_of_select_from {s : String} {m : List Char}
    (h : s.data = "SELECT * FROM ".data ++ m) : selectGate s = true := by
  have h1 : s.data.dropWhile isPySpace = s.data := by
    rw [h]
    have e : "SELECT * FROM ".data ++ m =
        'S' :: ("ELECT * FROM ".data ++ m) := rfl
    rw [e, List.dropWhile_cons, if_neg (by decide)]
  have hdecomp : s.data = "SELECT * FRO".data ++ 'M' :: (' ' :: m) := by
    rw [h]; rfl
  have hrev : s.data.reverse =
      (' ' :: m).reverse ++ 'M' :: ("SELECT * FRO".data).reverse := by
    rw [hdecomp]; simp
  have hsuf : ('M' :: ("SELECT * FRO".data).reverse) <:+
      (s.data.reverse.dropWhile isPySpace) := by
    rw [hrev]
    exact cons_suffix_dropWhile (by decide) _ _
  obtain ⟨W, hW⟩ := hsuf
  have hstrip : pyStripL s.data = "SELECT * FROM".data ++ W.reverse := by
    unfold pyStripL
    rw [h1, ← hW, List.reverse_append, List.reverse_cons,
      List.reverse_reverse,
      show "SELECT * FROM".data = "SELECT * FRO".data ++ ['M'] from by decide]
  have hpre : "SELECT".data <+: pyStripL s.data := by
    rw [hstrip]
    exact List.IsPrefix.trans ⟨" * FROM".data, by decide⟩
      (List.prefix_append _ _)
  have hup : "SELECT".data <+: (pyStripL s.data).map Char.toUpper := by
    have := hpre.map Char.toUpper
    have e2 : ("SELECT".data).map Char.toUpper = "SELECT".data := by decide
    rwa [e2] at this
  show pyIsPrefixOfL "SELECT".data ((pyStripL s.data).map Char.toUpper) = true
  exact pyIsPrefixOfL_iff.mpr hup

/-! ## Claim theorems -/

/-- C1: for every input string whose trimmed, case-normalized form does not
begin with the prefix SELECT, `execute_select_query` returns a response
with `success = false` and the fixed policy-violation error, and the engine
is not called for that input (the second component is `false`). -/
theorem C1_select_gate_rejects (engine : String → QueryResult)
    (sql_query : String) (h : selectGate sql_query = false) :
    execute_select_query engine sql_query =
      ({ success := false, query := sql_query,
         error := some policyViolationError }, false) := by
  unfold execute_select_query
  rw [h]
  rfl

/-- C1 witness: the scenario `execute("DROP TABLE users")` is rejected with
the fixed policy error and no engine call. -/
theorem C1_select_gate_rejects_witness :
    execute_select_query (fun _ => { success := true }) "DROP TABLE users" =
      ({ success := false, query := "DROP TABLE users",
         error := some policyViolationError }, false) :=
  C1_select_gate_rejects (fun _ => { success := true }) "DROP TABLE users"
    (by decide)

/-- C10: for every table name and clamped limit, the sample query submitted
by `get_sample_data` is exactly the concatenation
`"SELECT * FROM " ++ tableName ++ " LIMIT " ++ toString limit` with the
table name embedded verbatim (no quoting or escaping); this string always
passes the SELECT-prefix gate, so any SQL text inside the table name
reaches the executed statement unrejected; and the manager consults the
engine only on that one string. -/
theorem C10_sample_query_verbatim (table_name : String) (limit : Nat) :
    sample_query table_name limit =
      "SELECT * FROM " ++ table_name ++ " LIMIT " ++ toString limit ∧
    selectGate (sample_query table_name limit) = true ∧
    ∀ e₁ e₂ : String → QueryResult,
      e₁ (sample_query table_name limit) = e₂ (sample_query table_name limit) →
      PostgreSQLManager.get_sample_data e₁ table_name limit =
        PostgreSQLManager.get_sample_data e₂ table_name limit := by
  refine ⟨rfl, ?_, ?_⟩
  · exact selectGate_of_select_from (m := table_name.data ++
      (" LIMIT " ++ toString limit).data) (by
        simp [sample_query, String.data_append])
  · intro e₁ e₂ he
    unfold PostgreSQLManager.get_sample_data
    rw [he]

/-- C9: for every table name that is empty or whitespace-only and every
catalog fetch outcome, `get_table_schema` raises: the normal path and the
error-recovery path both construct a `TableSchema`, and its table-name
validator rejects the name, so the graceful-degradation guarantee does not
hold for such inputs. -/
theorem C9_empty_name_raises (fetch : Except String RawTableInfo)
    (table_name : String) (h : pyStrip table_name = "") :
    PostgreSQLManager.get_table_schema fetch table_name =
      .error "Table name cannot be empty" := by
  unfold PostgreSQLManager.get_table_schema
  have hmk : ∀ cols pks fks idxs,
      mkTableSchema table_name cols pks fks idxs =
        .error "Table name cannot be empty" := by
    intro cols pks fks idxs
    unfold mkTableSchema
    rw [if_pos h]
  cases fetch with
  | error e => simp [Bind.bind, Except.bind, hmk]
  | ok info =>
    cases hc : PostgreSQLManager.mkColumns info.columns with
    | error e => simp [Bind.bind, Except.bind, hc, hmk]
    | ok cols => simp [Bind.bind, Except.bind, hc, hmk]

/-- C9 witness: `get_table_schema("   ")` raises even though the catalog
fetch succeeded. -/
theorem C9_empty_name_raises_witness :
    PostgreSQLManager.get_table_schema (.ok {}) "   " =
      .error "Table name cannot be empty" :=
  C9_empty_name_raises (.ok {}) "   " (by decide)

/-- C5 counterexample: the claim quantifies over every table name whose
catalog fetch fails, but for the empty table name the error-recovery path
itself raises (the `TableSchema` validator rejects the name), so no
`TableSchema` is returned and a fault reaches the caller. -/
theorem C5_counterexample :
    PostgreSQLManager.get_table_schema (.error "catalog failure") "" =
      .error "Table name cannot be empty" := rfl

/-- C5 (amended): for every table name that is non-empty after stripping,
a failing catalog fetch makes `get_table_schema` return a `TableSchema`
with the (stripped) table name set and an empty column list, raising no
fault. -/
theorem C5_failed_fetch_empty_schema (e : String) (table_name : String)
    (h : pyStrip table_name ≠ "") :
    PostgreSQLManager.get_table_schema (.error e) table_name =
      .ok { table_name := pyStrip table_name } := by
  unfold PostgreSQLManager.get_table_schema
  have : (do
      let info ← (.error e : Except String RawTableInfo)
      let cols ← PostgreSQLManager.mkColumns info.columns
      let pks := info.pk_constrained_columns
      let marked := PostgreSQLManager.markPrimaryKeys pks cols
      mkTableSchema table_name marked pks
        (PostgreSQLManager.mkForeignKeys info.foreign_keys)
        (PostgreSQLManager.mkIndexes info.indexes) :
      Except String TableSchema) = .error e := rfl
  rw [this]
  unfold mkTableSchema
  rw [if_neg h]

/-- C5 witness: the spec scenario `getTableSchema("nonexistent_table")`
with a failing catalog fetch yields a named, columnless schema. -/
theorem C5_failed_fetch_empty_schema_witness :
    PostgreSQLManager.get_table_schema (.error "table not found")
        "nonexistent_table" =
      .ok { table_name := pyStrip "nonexistent_table" } :=
  C5_failed_fetch_empty_schema "table not found" "nonexistent_table"
    (by decide)

/-- C6 counterexample: when the catalog query fails, `list_tables` does not
raise an `IntrospectionError` — the `except` branch catches the failure and
returns the empty list, a normal return value. -/
theorem C6_counterexample :
    PostgreSQLManager.list_tables (.error "catalog failure") = [] := rfl

/-- C6 (amended): when the engine catalog query underlying `list_tables`
fails, `list_tables` itself catches the failure and returns zero tables
(the empty list, not a raised fault), and the higher-level schema build
consequently produces an empty snapshot with zero tables. -/
theorem C6_list_tables_catches (fetch : String → Except String RawTableInfo)
    (e : String) (database_name : String) :
    PostgreSQLManager.list_tables (.error e) = [] ∧
    PostgreSQLManager.get_database_schema fetch (.error e) database_name =
      .ok { database_name := database_name, tables := [],
            total_tables := 0 } :=
  ⟨rfl, rfl⟩

/-- The table loop never shrinks the mapping and, when every processed
table name is fresh for the accumulator and the names are pairwise
distinct, adds exactly one entry per name. -/
theorem buildTables_length (fetch : String → Except String RawTableInfo) :
    ∀ (names : List String) (acc : List (String × TableSchema)),
      names.Nodup → (∀ t ∈ names, ∀ p ∈ acc, p.1 ≠ t) →
      ∀ m, PostgreSQLManager.buildTables fetch names acc = .ok m →
        m.length = acc.length + names.length
  | [], acc, _, _, m, hm => by
      unfold PostgreSQLManager.buildTables at hm
      cases hm
      simp
  | t :: rest, acc, hnd, hfresh, m, hm => by
      unfold PostgreSQLManager.buildTables at hm
      cases hts : PostgreSQLManager.get_table_schema (fetch t) t with
      | error e => rw [hts] at hm; exact absurd hm (by simp [Bind.bind, Except.bind])
      | ok ts =>
        rw [hts] at hm
        simp only [Bind.bind, Except.bind] at hm
        have hins : PostgreSQLManager.dictInsert acc t ts = acc ++ [(t, ts)] := by
          unfold PostgreSQLManager.dictInsert
          rw [if_neg]
          intro hany
          rw [List.any_eq_true] at hany
          obtain ⟨p, hp, hpt⟩ := hany
          exact hfresh t (by simp) p hp (by simpa using hpt)
        rw [hins] at hm
        have hnd' := hnd
        rw [List.nodup_cons] at hnd'
        have ihres := buildTables_length fetch rest (acc ++ [(t, ts)])
          hnd'.2
          (by
            intro r hr p hp
            rcases List.mem_append.mp hp with hpa | hpt
            · exact hfresh r (by simp [hr]) p hpa
            · have hpe : p = (t, ts) := by simpa using hpt
              subst hpe
              intro hcontra
              apply hnd'.1
              have het : t = r := hcontra
              rw [het]
              exact hr)
          m hm
        rw [ihres]
        simp [Nat.add_assoc, Nat.add_comm 1 rest.length]

/-- C3 counterexample: the claim quantifies over catalog listings with
repeated names, but `get_database_schema` sets `total_tables` to the
length of the listed names while the mapping collapses duplicates: with
the listing `["a", "a"]` the snapshot reports 2 total tables over a
1-entry mapping. -/
theorem C3_counterexample :
    (PostgreSQLManager.get_database_schema (fun _ => .error "boom")
        (.ok ["a", "a"]) "db").map
      (fun s => (s.total_tables, s.tables.length)) = .ok (2, 1) := rfl

/-- C3 (amended): whenever the table names reported by the engine catalog
are pairwise distinct — the case for a real catalog — the snapshot's
`total_tables` equals the number of entries of the `tables` mapping; in
general it equals the length of the reported name list. -/
theorem C3_total_tables (fetch : String → Except String RawTableInfo)
    (names : List String) (database_name : String) (s : DatabaseSchema)
    (hnd : names.Nodup)
    (hs : PostgreSQLManager.get_database_schema fetch (.ok names)
            database_name = .ok s) :
    s.total_tables = s.tables.length := by
  have hs' : (do
      let m ← PostgreSQLManager.buildTables fetch names []
      Except.ok { database_name := database_name, tables := m,
                  total_tables := names.length } :
      Except String DatabaseSchema) = Except.ok s := hs
  cases hm : PostgreSQLManager.buildTables fetch names [] with
  | error e =>
    rw [hm] at hs'
    exact absurd hs' (by simp [Bind.bind, Except.bind])
  | ok m =>
    rw [hm] at hs'
    simp only [Bind.bind, Except.bind, Except.ok.injEq] at hs'
    have hlen := buildTables_length fetch names [] hnd (by simp) m hm
    rw [← hs']
    simpa using hlen.symm

/-- C3 witness: a duplicate-free listing of two tables whose fetches fail
yields a snapshot with `total_tables = 2` over a 2-entry mapping. -/
theorem C3_total_tables_witness :
    ({ database_name := "db",
       tables := [("a", { table_name := "a" }), ("b", { table_name := "b" })],
       total_tables := 2 } : DatabaseSchema).total_tables =
    ({ database_name := "db",
       tables := [("a", { table_name := "a" }), ("b", { table_name := "b" })],
       total_tables := 2 } : DatabaseSchema).tables.length :=
  C3_total_tables (fun _ => .error "boom") ["a", "b"] "db" _
    (by decide) (by rfl)

/-- A successful `get_table_schema` on a successful fetch is either the
fully built schema (when every column validated) or the recovery schema
from the `except` branch (empty columns, empty keys). -/
theorem get_table_schema_ok_shape {info : RawTableInfo} {table_name : String}
    {ts : TableSchema}
    (h : PostgreSQLManager.get_table_schema (.ok info) table_name = .ok ts) :
    (∃ cols, PostgreSQLManager.mkColumns info.columns = .ok cols ∧
      ts = { table_name := pyStrip table_name,
             columns := PostgreSQLManager.markPrimaryKeys
               info.pk_constrained_columns cols,
             primary_keys := info.pk_constrained_columns,
             foreign_keys := PostgreSQLManager.mkForeignKeys info.foreign_keys,
             indexes := PostgreSQLManager.mkIndexes info.indexes }) ∨
    ts = { table_name := pyStrip table_name } := by
  unfold PostgreSQLManager.get_table_schema at h
  simp only [Bind.bind, Except.bind] at h
  have hrec : ∀ hn : ¬ pyStrip table_name = "",
      mkTableSchema table_name [] [] [] [] =
        .ok { table_name := pyStrip table_name } := by
    intro hn
    unfold mkTableSchema
    rw [if_neg hn]
  have hrecbad : ∀ _ : pyStrip table_name = "",
      mkTableSchema table_name [] [] [] [] =
        .error "Table name cannot be empty" := by
    intro hn
    unfold mkTableSchema
    rw [if_pos hn]
  cases hc : PostgreSQLManager.mkColumns info.columns with
  | error e =>
    rw [hc] at h
    dsimp only at h
    by_cases hn : pyStrip table_name = ""
    · rw [hrecbad hn] at h
      simp at h
    · rw [hrec hn] at h
      simp only [Except.ok.injEq] at h
      right
      exact h.symm
  | ok cols =>
    rw [hc] at h
    dsimp only at h
    by_cases hn : pyStrip table_name = ""
    · rw [show mkTableSchema table_name
          (PostgreSQLManager.markPrimaryKeys info.pk_constrained_columns cols)
          info.pk_constrained_columns
          (PostgreSQLManager.mkForeignKeys info.foreign_keys)
          (PostgreSQLManager.mkIndexes info.indexes) =
          .error "Table name cannot be empty" from by
        unfold mkTableSchema; rw [if_pos hn]] at h
      dsimp only at h
      rw [hrecbad hn] at h
      simp at h
    · rw [show mkTableSchema table_name
          (PostgreSQLManager.markPrimaryKeys info.pk_constrained_columns cols)
          info.pk_constrained_columns
          (PostgreSQLManager.mkForeignKeys info.foreign_keys)
          (PostgreSQLManager.mkIndexes info.indexes) =
          .ok { table_name := pyStrip table_name,
                columns := PostgreSQLManager.markPrimaryKeys
                  info.pk_constrained_columns cols,
                primary_keys := info.pk_constrained_columns,
                foreign_keys := PostgreSQLManager.mkForeignKeys
                  info.foreign_keys,
                indexes := PostgreSQLManager.mkIndexes info.indexes } from by
        unfold mkTableSchema; rw [if_neg hn]] at h
      dsimp only at h
      simp only [Except.ok.injEq] at h
      left
      exact ⟨cols, rfl, h.symm⟩

/-- When the column loop succeeds, the produced column names are the
stripped raw names in order, and every produced column has its primary-key
flag still unset (the marking pass runs afterwards). -/
theorem mkColumns_names_flags :
    ∀ {rcs : List RawColumn} {cols : List DatabaseColumn},
      PostgreSQLManager.mkColumns rcs = .ok cols →
      cols.map (fun c => c.name) = rcs.map (fun rc => pyStrip rc.name) ∧
      ∀ c ∈ cols, c.primary_key = false
  | [], cols, h => by
      unfold PostgreSQLManager.mkColumns at h
      injection h with h
      subst h
      exact ⟨rfl, by simp⟩
  | rc :: rest, cols, h => by
      unfold PostgreSQLManager.mkColumns at h
      simp only [Bind.bind, Except.bind] at h
      unfold mkDatabaseColumn at h
      by_cases hn : pyStrip rc.name = ""
      · rw [if_pos hn] at h
        simp at h
      · rw [if_neg hn] at h
        simp only at h
        cases hc : PostgreSQLManager.mkColumns rest with
        | error e =>
          rw [hc] at h
          simp at h
        | ok cs =>
          rw [hc] at h
          simp only at h
          injection h with h
          subst h
          obtain ⟨hnames, hflags⟩ := mkColumns_names_flags hc
          refine ⟨?_, ?_⟩
          · simp [hnames]
          · intro c hcmem
            rcases List.mem_cons.mp hcmem with hch | hct
            · subst hch; rfl
            · exact hflags c hct

/-- C4: for every successfully fetched table with at least one column —
with the engine catalog well-formed, i.e. every reported primary-key
column name occurring among the reported (stripped) column names — the
`TableSchema` returned by `get_table_schema` satisfies: the set of names
in `primary_keys` equals the set of names of columns whose `primary_key`
flag is true (each is a subset of the other). -/
theorem C4_primary_keys_consistent (info : RawTableInfo)
    (table_name : String) (hcols : info.columns ≠ [])
    (hwf : ∀ p ∈ info.pk_constrained_columns,
        p ∈ info.columns.map (fun rc => pyStrip rc.name))
    (ts : TableSchema)
    (hts : PostgreSQLManager.get_table_schema (.ok info) table_name = .ok ts) :
    (∀ c ∈ ts.columns, c.primary_key = true → c.name ∈ ts.primary_keys) ∧
    (∀ p ∈ ts.primary_keys,
      ∃ c ∈ ts.columns, c.primary_key = true ∧ c.name = p) := by
  rcases get_table_schema_ok_shape hts with ⟨cols, hc, hts'⟩ | hts'
  · subst hts'
    obtain ⟨hnames, hflags⟩ := mkColumns_names_flags hc
    constructor
    · intro c hcmem hpk
      simp only [PostgreSQLManager.markPrimaryKeys, List.mem_map] at hcmem
      obtain ⟨c₀, hc₀, hmark⟩ := hcmem
      by_cases he : List.elem c₀.name info.pk_constrained_columns = true
      · rw [if_pos he] at hmark
        subst hmark
        exact List.elem_iff.mp he
      · rw [if_neg he] at hmark
        subst hmark
        exact absurd hpk (by simp [hflags c₀ hc₀])
    · intro p hp
      have hmem := hwf p hp
      rw [← hnames, List.mem_map] at hmem
      obtain ⟨c₀, hc₀, hname⟩ := hmem
      have he : List.elem c₀.name info.pk_constrained_columns = true :=
        List.elem_iff.mpr (hname ▸ hp)
      refine ⟨{ c₀ with primary_key := true }, ?_, rfl, hname⟩
      simp only [PostgreSQLManager.markPrimaryKeys, List.mem_map]
      exact ⟨c₀, hc₀, by rw [if_pos he]⟩
  · subst hts'
    exact ⟨by intro c hcmem; simp at hcmem, by intro p hp; simp at hp⟩

/-- C4 witness: a one-column table whose column is the primary key. -/
theorem C4_primary_keys_consistent_witness :
    (∀ c ∈ (PostgreSQLManager.markPrimaryKeys ["id"]
        [{ name := "id", type := "INTEGER", nullable := false }]),
      c.primary_key = true → c.name ∈ ["id"]) ∧
    (∀ p ∈ ["id"],
      ∃ c ∈ (PostgreSQLManager.markPrimaryKeys ["id"]
        [{ name := "id", type := "INTEGER", nullable := false }]),
        c.primary_key = true ∧ c.name = p) := by
  have h := C4_primary_keys_consistent
    { columns := [{ name := "id", type := "INTEGER", nullable := false,
                    default := none }],
      pk_constrained_columns := ["id"] }
    "users" (by simp) (by decide)
    { table_name := pyStrip "users",
      columns := PostgreSQLManager.markPrimaryKeys ["id"]
        [{ name := pyStrip "id", type := "INTEGER", nullable := false }],
      primary_keys := ["id"] }
    rfl
  simpa using h

/-- C8: every `ForeignKey` of a returned `TableSchema` is one raw
engine-reported record copied field-for-field (the positional pairing is
preserved unchanged), and — with the engine catalog well-formed, i.e.
each raw record pairing lists of equal length — its constrained and
referred column lists have equal length. -/
theorem C8_foreign_keys_preserved (info : RawTableInfo)
    (table_name : String)
    (hlen : ∀ rfk ∈ info.foreign_keys,
        rfk.constrained_columns.length = rfk.referred_columns.length)
    (ts : TableSchema)
    (hts : PostgreSQLManager.get_table_schema (.ok info) table_name = .ok ts) :
    ∀ fk ∈ ts.foreign_keys,
      fk.constrained_columns.length = fk.referred_columns.length ∧
      ∃ rfk ∈ info.foreign_keys,
        fk.constrained_columns = rfk.constrained_columns ∧
        fk.referred_table = rfk.referred_table ∧
        fk.referred_columns = rfk.referred_columns ∧
        fk.name = rfk.name := by
  rcases get_table_schema_ok_shape hts with ⟨cols, hc, hts'⟩ | hts'
  · subst hts'
    intro fk hfk
    simp only [PostgreSQLManager.mkForeignKeys, List.mem_map] at hfk
    obtain ⟨rfk, hrfk, heq⟩ := hfk
    subst heq
    exact ⟨hlen rfk hrfk, rfk, hrfk, rfl, rfl, rfl, rfl⟩
  · subst hts'
    intro fk hfk
    simp at hfk

/-- C8 witness: a table with one two-column foreign key, instantiated at
that foreign key. -/
theorem C8_foreign_keys_preserved_witness :
    ({ constrained_columns := ["a1", "a2"], referred_table := "t2",
       referred_columns := ["b1", "b2"], name := some "fk1" } :
      ForeignKey).constrained_columns.length =
      ({ constrained_columns := ["a1", "a2"], referred_table := "t2",
         referred_columns := ["b1", "b2"], name := some "fk1" } :
        ForeignKey).referred_columns.length ∧
    ∃ rfk ∈ ({ columns := [{ name := "x", type := "TEXT", nullable := true,
                             default := none }],
               foreign_keys := [{ constrained_columns := ["a1", "a2"],
                                  referred_table := "t2",
                                  referred_columns := ["b1", "b2"],
                                  name := some "fk1" }] } :
              RawTableInfo).foreign_keys,
      ({ constrained_columns := ["a1", "a2"], referred_table := "t2",
         referred_columns := ["b1", "b2"], name := some "fk1" } :
        ForeignKey).constrained_columns = rfk.constrained_columns ∧
      ({ constrained_columns := ["a1", "a2"], referred_table := "t2",
         referred_columns := ["b1", "b2"], name := some "fk1" } :
        ForeignKey).referred_table = rfk.referred_table ∧
      ({ constrained_columns := ["a1", "a2"], referred_table := "t2",
         referred_columns := ["b1", "b2"], name := some "fk1" } :
        ForeignKey).referred_columns = rfk.referred_columns ∧
      ({ constrained_columns := ["a1", "a2"], referred_table := "t2",
         referred_columns := ["b1", "b2"], name := some "fk1" } :
        ForeignKey).name = rfk.name :=
  C8_foreign_keys_preserved
    { columns := [{ name := "x", type := "TEXT", nullable := true,
                    default := none }],
      foreign_keys := [{ constrained_columns := ["a1", "a2"],
                         referred_table := "t2",
                         referred_columns := ["b1", "b2"],
                         name := some "fk1" }] }
    "t1" (by decide)
    { table_name := pyStrip "t1",
      columns := PostgreSQLManager.markPrimaryKeys []
        [{ name := pyStrip "x", type := "TEXT", nullable := true }],
      primary_keys := [],
      foreign_keys := PostgreSQLManager.mkForeignKeys
        [{ constrained_columns := ["a1", "a2"], referred_table := "t2",
           referred_columns := ["b1", "b2"], name := some "fk1" }] }
    rfl
    { constrained_columns := ["a1", "a2"], referred_table := "t2",
      referred_columns := ["b1", "b2"], name := some "fk1" }
    (by decide)

/-- C2: for every table name and requested limit, the MCP tool clamps the
limit to at most 20 before the query is issued (it delegates with
`min limit 20`), and — whenever the engine honours the `LIMIT` clause of
the issued sample query, returning at most that many rows — the returned
`SampleData` has at most `min(limit, 20)` rows. -/
theorem C2_sample_limit_clamped (engine : String → QueryResult)
    (table_name : String) (limit : Nat)
    (hhonor : ∀ rows,
      (engine (sample_query table_name (min limit 20))).data = some rows →
      rows.length ≤ min limit 20) :
    get_sample_data engine table_name limit =
      { success := true, table_name := table_name,
        sample_data := some (PostgreSQLManager.get_sample_data engine
          table_name (min limit 20)) } ∧
    (PostgreSQLManager.get_sample_data engine table_name
        (min limit 20)).rows.length ≤ min limit 20 := by
  refine ⟨rfl, ?_⟩
  unfold PostgreSQLManager.get_sample_data
  cases hr : engine (sample_query table_name (min limit 20)) with
  | mk succ dat err ra colsf =>
    rw [hr] at hhonor
    cases succ with
    | false => simp
    | true =>
      cases dat with
      | none => simp
      | some l =>
        cases l with
        | nil => simp
        | cons row rest =>
          dsimp only
          exact hhonor (row :: rest) rfl

/-- C2 witness: a 1-row engine answer under requested limit 5. -/
theorem C2_sample_limit_clamped_witness :
    get_sample_data
        (fun _ => { success := true,
                    data := some [[("id", PyValue.int 1)]],
                    columns := some ["id"] }) "users" 5 =
      { success := true, table_name := "users",
        sample_data := some (PostgreSQLManager.get_sample_data
          (fun _ => { success := true,
                      data := some [[("id", PyValue.int 1)]],
                      columns := some ["id"] }) "users" (min 5 20)) } ∧
    (PostgreSQLManager.get_sample_data
        (fun _ => { success := true,
                    data := some [[("id", PyValue.int 1)]],
                    columns := some ["id"] }) "users" (min 5 20)).rows.length ≤
      min 5 20 :=
  C2_sample_limit_clamped
    (fun _ => { success := true, data := some [[("id", PyValue.int 1)]],
                columns := some ["id"] }) "users" 5
    (by
      intro rows h
      injection h with h
      rw [← h]
      decide)

/-- A concrete successful catalog fetch: table with a single column. -/
def oneColumnFetch : Except String RawTableInfo :=
  .ok { columns := [{ name := "id", type := "INTEGER", nullable := false,
                      default := none }] }

/-- A concrete engine on which every query — in particular the
`SELECT COUNT(*)` — fails with a structured error (`success = False`),
as `execute_query` produces for any engine-level failure. -/
def failingCountEngine : String → QueryResult :=
  fun _ => { success := false, error := some "count failed" }

/-- C7 counterexample: with a one-column table and a count query that
fails (an unsuccessful `QueryResult`, the shape every engine-level failure
takes), `get_table_statistics` still returns the statistics — but the
output contains no row-count report at all: the claimed
`"Unable to determine"` text is absent (as is any `"Total Rows"` or
`"Row count"` line), because the `except` branch that would print it is
unreachable for a count failure captured as `success=False`. -/
theorem C7_counterexample :
    (failingCountEngine (count_query "users")).success = false ∧
    pyStartsWith (get_table_statistics oneColumnFetch failingCountEngine
      "users") "Statistics for table" = true ∧
    pyIn "Unable to determine" (get_table_statistics oneColumnFetch
      failingCountEngine "users") = false ∧
    pyIn "Total Rows" (get_table_statistics oneColumnFetch
      failingCountEngine "users") = false ∧
    pyIn "Row count" (get_table_statistics oneColumnFetch
      failingCountEngine "users") = false := by
  refine ⟨rfl, ?_, ?_, ?_, ?_⟩ <;> decide

/-- C7 (amended): in `get_table_statistics`, for every table whose schema
fetch succeeds with at least one column, a failure of the `SELECT COUNT(*)`
query (an unsuccessful `QueryResult`) is tolerated: the operation still
returns the statistics, with the row-count block simply omitted (empty,
not reported as "unable to determine" — that text appears only when the
count step raises an exception, e.g. a missing or non-integer `row_count`
value); a schema-level failure (table not found or no columns) terminates
the composed operation with the not-found message and no statistics. -/
theorem C7_count_failure_tolerated (fetch : Except String RawTableInfo)
    (engine : String → QueryResult) (table_name : String)
    (schema : TableSchema)
    (hschema : PostgreSQLManager.get_table_schema fetch table_name =
      .ok schema)
    (hfail : (engine (count_query table_name)).success = false) :
    (schema.columns ≠ [] →
      get_table_statistics fetch engine table_name =
        statsResponse table_name schema (rowCountSection engine table_name) ∧
      rowCountSection engine table_name = "") ∧
    (schema.columns = [] →
      get_table_statistics fetch engine table_name =
        "Table '" ++ table_name ++ "' not found or has no columns") := by
  constructor
  · intro hne
    have hrow : rowCountSection engine table_name = "" := by
      unfold rowCountSection
      cases hr : engine (count_query table_name) with
      | mk succ dat err ra colsf =>
        rw [hr] at hfail
        dsimp only at hfail
        subst hfail
        cases dat with
        | none => rfl
        | some l =>
          cases l with
          | nil => rfl
          | cons row rest => rfl
    refine ⟨?_, hrow⟩
    unfold get_table_statistics
    rw [hschema]
    dsimp only
    rw [if_neg (by simp [hne])]
  · intro hemp
    unfold get_table_statistics
    rw [hschema]
    dsimp only
    rw [if_pos (by simp [hemp])]

/-- C7 witness: the tolerated-count-failure branch at the concrete
one-column table, and the terminal branch at a concrete failing fetch. -/
theorem C7_count_failure_tolerated_witness :
    (({ table_name := pyStrip "users",
        columns := PostgreSQLManager.markPrimaryKeys []
          [{ name := pyStrip "id", type := "INTEGER", nullable := false }],
        primary_keys := [] } : TableSchema).columns ≠ [] →
      get_table_statistics oneColumnFetch failingCountEngine "users" =
        statsResponse "users"
          { table_name := pyStrip "users",
            columns := PostgreSQLManager.markPrimaryKeys []
              [{ name := pyStrip "id", type := "INTEGER",
                 nullable := false }],
            primary_keys := [] }
          (rowCountSection failingCountEngine "users") ∧
      rowCountSection failingCountEngine "users" = "") ∧
    (({ table_name := pyStrip "users",
        columns := PostgreSQLManager.markPrimaryKeys []
          [{ name := pyStrip "id", type := "INTEGER", nullable := false }],
        primary_keys := [] } : TableSchema).columns = [] →
      get_table_statistics oneColumnFetch failingCountEngine "users" =
        "Table '" ++ "users" ++ "' not found or has no columns") :=
  C7_count_failure_tolerated oneColumnFetch failingCountEngine "users"
    { table_name := pyStrip "users",
      columns := PostgreSQLManager.markPrimaryKeys []
        [{ name := pyStrip "id", type := "INTEGER", nullable := false }],
      primary_keys := [] }
    rfl rfl
